import Mathlib

/-!
Verification development for the zagora handler-wrapping and validation
engine (src/index.ts).  The definitions below are a shallow embedding of
the TypeScript source: JavaScript values become the inductive `JSVal`,
standard-schema validators become `Schema` (a function from a value to a
possibly-promise-wrapped validation outcome), and the wrapper produced by
`createHandlerSync` / `createHandlerAsync` becomes `wrapperSync` /
`wrapperAsync`.  Thrown exceptions are modelled with `Except`: a
`.error e` escaping a function is an uncaught throw of the value `e`.
-/

namespace Zagora

/-- JavaScript runtime values, as far as the engine inspects them.
`zerror` is a `ZagoraError` instance (message, issues, cause, reason);
`errObj` is any other `Error` instance; `promise` / `promiseRejected`
are pending computations that resolve to, respectively reject with,
their payload.  Structured issues are modelled by their message strings
(the engine only ever joins and stores them). -/
inductive JSVal where
  | undefinedVal : JSVal
  | null : JSVal
  | boolv (b : Bool) : JSVal
  | num (n : Int) : JSVal
  | str (s : String) : JSVal
  | arr (xs : List JSVal) : JSVal
  | obj (fields : List (String × JSVal)) : JSVal
  | zerror (message : String) (issues : List String) (cause : JSVal) (reason : String) : JSVal
  | errObj (message : String) : JSVal
  | promise (inner : JSVal) : JSVal
  | promiseRejected (e : JSVal) : JSVal

/-- The check `v instanceof Promise`. -/
def isPromise : JSVal → Bool
  | .promise _ => true
  | .promiseRejected _ => true
  | _ => false

/-- The loose JavaScript check `v != null` is false exactly on `null` and
`undefined`; this is its negation. -/
def isNullish : JSVal → Bool
  | .null => true
  | .undefinedVal => true
  | _ => false

/-- The check `v instanceof ZagoraError`. -/
def isZagoraError : JSVal → Bool
  | .zerror _ _ _ _ => true
  | _ => false

/-- Conversion `String(v)` as far as the engine needs it (only used for the message
of a caught non-`Error` value when no reason is supplied). -/
def jsToString : JSVal → String
  | .undefinedVal => "undefined"
  | .null => "null"
  | .boolv b => if b then "true" else "false"
  | .num n => toString n
  | .str s => s
  | .arr _ => "[array]"
  | .obj _ => "[object Object]"
  | .zerror m _ _ _ => m
  | .errObj m => m
  | .promise _ => "[object Promise]"
  | .promiseRejected _ => "[object Promise]"

/-- The expression `caught instanceof Error ? caught.message : String(caught)`. -/
def caughtMessage : JSVal → String
  | .zerror m _ _ _ => m
  | .errObj m => m
  | v => jsToString v

/-- Construction `new ZagoraError(message)` with no options: empty issues, no cause,
reason defaulted to "Unknown or internal error". -/
def newZagoraError (message : String) : JSVal :=
  .zerror message [] .undefinedVal "Unknown or internal error"

/-- Factory `ZagoraError.fromIssues`: message is the comma-joined issue messages,
reason is "Failure caused by validation". -/
def zagoraFromIssues (issues : List String) : JSVal :=
  .zerror (String.intercalate ", " issues) issues .undefinedVal "Failure caused by validation"

/-- Factory `ZagoraError.fromCaughtError(caught, reason?)`: message is the reason
when given, otherwise the caught value's message/stringification; the
caught value is preserved as the cause. -/
def zagoraFromCaught (caught : JSVal) (reason : Option String) : JSVal :=
  .zerror (reason.getD (caughtMessage caught)) [] caught
    (reason.getD "Unknown or internal error")

/-- Outcome of one standard-schema validation: a normalized value or a
non-empty list of structured issues. -/
inductive ValidateOutcome where
  | ok (value : JSVal)
  | issues (iss : List String)

/-- What `schema["~standard"].validate(v)` hands back: either a plain
outcome or a `Promise` of one (`result instanceof Promise`). -/
inductive SchemaResult where
  | sync (r : ValidateOutcome)
  | promise (r : ValidateOutcome)

/-- Whether a validation call came back synchronously. -/
def SchemaResult.isSync : SchemaResult → Bool
  | .sync _ => true
  | .promise _ => false

/-- Awaiting a schema result, i.e. applying `await`,  (the async call paths do this). -/
def SchemaResult.awaited : SchemaResult → ValidateOutcome
  | .sync r => r
  | .promise r => r

/-- A Standard Schema object: the engine only ever calls its validate
capability. -/
structure Schema where
  validate : JSVal → SchemaResult

/-- Result record of `validateInput` / `validateInputSync`. -/
structure InputRes where
  args : List JSVal
  error : Option JSVal

/-- The coercion applied to a validated input value:
`Array.isArray(v) ? v : [v]`. -/
def toArgs : JSVal → List JSVal
  | .arr xs => xs
  | v => [v]

/-- The single-argument branch of `Zagora.validateInputSync`
(src/index.ts lines 541-561): validate `rawArgs[0]`, throwing when the
schema answers with a `Promise`. -/
def singleInputSync (s : Schema) (rawArgs : List JSVal) : Except JSVal InputRes :=
  match s.validate (rawArgs.headD .undefinedVal) with
  | .promise _ =>
      .error (newZagoraError "Cannot use async input schema validation in handlerSync")
  | .sync (.issues iss) => .ok { args := [], error := some (zagoraFromIssues iss) }
  | .sync (.ok v) => .ok { args := toArgs v, error := none }

/-- Source `Zagora.validateInputSync` (src/index.ts lines 524-562): when more
than one raw argument was passed, first validate the raw argument array
as a tuple; on success the normalized value is cast to an argument array
(the source casts with `as unknown[]`; tuple-shaped schemas always
normalize to an array, and we reuse the array/single coercion).  On
tuple failure, or with at most one raw argument, fall through to the
single-argument branch.  An asynchronous validation outcome is thrown as
a `ZagoraError`. -/
def validateInputSync (s : Schema) (rawArgs : List JSVal) : Except JSVal InputRes :=
  if rawArgs.length > 1 then
    match s.validate (.arr rawArgs) with
    | .promise _ =>
        .error (newZagoraError "Cannot use async input schema validation in handlerSync")
    | .sync (.ok v) => .ok { args := toArgs v, error := none }
    | .sync (.issues _) => singleInputSync s rawArgs
  else
    singleInputSync s rawArgs

/-- The single-argument branch of `Zagora.validateInput` (async variant,
src/index.ts lines 579-597): a `Promise` outcome is awaited instead of
thrown. -/
def singleInput (s : Schema) (rawArgs : List JSVal) : InputRes :=
  match (s.validate (rawArgs.headD .undefinedVal)).awaited with
  | .issues iss => { args := [], error := some (zagoraFromIssues iss) }
  | .ok v => { args := toArgs v, error := none }

/-- Source `Zagora.validateInput` (src/index.ts lines 564-598): same shape as
the synchronous variant but awaiting asynchronous outcomes. -/
def validateInput (s : Schema) (rawArgs : List JSVal) : InputRes :=
  if rawArgs.length > 1 then
    match (s.validate (.arr rawArgs)).awaited with
    | .ok v => { args := toArgs v, error := none }
    | .issues _ => singleInput s rawArgs
  else
    singleInput s rawArgs

/-- Outcome of `Zagora.validateOutput`: `[value, null]` or
`[null, ZagoraError]`. -/
inductive VOut where
  | ok (v : JSVal)
  | verr (e : JSVal)

/-- Source `Zagora.validateOutput` (src/index.ts lines 602-629), with the
`isSync` flag of the source: a `Promise` outcome throws in sync mode and
is awaited otherwise. -/
def validateOutput (os : Schema) (output : JSVal) (isSync : Bool) : Except JSVal VOut :=
  match os.validate output with
  | .promise r =>
      if isSync then
        .error (newZagoraError "Cannot use async output schema validation in handlerSync")
      else
        match r with
        | .issues iss => .ok (.verr (zagoraFromIssues iss))
        | .ok v => .ok (.ok v)
  | .sync (.issues iss) => .ok (.verr (zagoraFromIssues iss))
  | .sync (.ok v) => .ok (.ok v)

/-- Source `Zagora.validateError` (src/index.ts lines 631-665): walk the error
declaration map in order; the first schema whose validation succeeds
wins (`isTyped = true`).  A `Promise` outcome throws in sync mode; in
async mode it is awaited, and — exactly as in the source — a failed
awaited validation returns `(maybeErr, false)` immediately without
trying the remaining schemas. -/
def validateError (es : List (String × Schema)) (maybeErr : JSVal) (isSync : Bool) :
    Except JSVal (JSVal × Bool) :=
  match es with
  | [] => .ok (maybeErr, false)
  | (_k, s) :: rest =>
    match s.validate maybeErr with
    | .promise r =>
        if isSync then
          .error (newZagoraError "Cannot use async error schema validation in handlerSync")
        else
          match r with
          | .ok v => .ok (v, true)
          | .issues _ => .ok (maybeErr, false)
    | .sync (.ok v) => .ok (v, true)
    | .sync (.issues _) => validateError rest maybeErr isSync

/-- The dual array/object result of `createDualResult` (src/index.ts
lines 41-52): a three-slot tuple that also carries the named fields
`data`, `error`, `isDefined`. -/
structure DualResult where
  slot0 : JSVal
  slot1 : JSVal
  slot2 : Bool
  data : JSVal
  error : JSVal
  isDefined : Bool

/-- Source `createDualResult(data, error, isDefined)`: the tuple slots and the
named fields are written from the same triple. -/
def createDualResult (data error : JSVal) (isDefined : Bool) : DualResult :=
  { slot0 := data, slot1 := error, slot2 := isDefined
    data := data, error := error, isDefined := isDefined }

/-- The positional view of a dual result: a fixed-length array of its
three slots. -/
def DualResult.toTuple (r : DualResult) : JSVal :=
  .arr [r.slot0, r.slot1, .boolv r.slot2]

/-- The tuple view and the object view of a dual result agree slot by
slot. -/
def dualAgrees (r : DualResult) : Prop :=
  r.slot0 = r.data ∧ r.slot1 = r.error ∧ r.slot2 = r.isDefined

/-- The schemas and configuration captured by a wrapper at construction
time (the fields of `Zagora` after the terminal build step, with both
required schemas present). -/
structure HandlerDef where
  inputSchema : Schema
  outputSchema : Schema
  errSchema : Option (List (String × Schema))
  errorsFirst : Bool

/-- The builder state just before a terminal `handler` / `handlerSync`
call: each schema slot may still be unset. -/
structure ZagoraState where
  input : Option Schema
  output : Option Schema
  errs : Option (List (String × Schema))
  errorsFirst : Bool

/-- The construction-time guard shared by `createHandlerSync` and
`createHandlerAsync` (src/index.ts lines 266-271 and 397-402): a missing
input or output schema throws immediately; otherwise the captured
definition is produced. -/
def requireSchemas (st : ZagoraState) : Except String HandlerDef :=
  match st.input with
  | none => .error ".input(...) must be called first"
  | some is =>
    match st.output with
    | none => .error ".output(...) must be called first"
    | some os => .ok ⟨is, os, st.errs, st.errorsFirst⟩

/-- ASCII uppercase of one character, which is what
`String.prototype.toUpperCase` does on the lower-case ASCII key names
error maps use. -/
def upChar (c : Char) : Char :=
  if c = 'a' then 'A' else if c = 'b' then 'B' else if c = 'c' then 'C'
  else if c = 'd' then 'D' else if c = 'e' then 'E' else if c = 'f' then 'F'
  else if c = 'g' then 'G' else if c = 'h' then 'H' else if c = 'i' then 'I'
  else if c = 'j' then 'J' else if c = 'k' then 'K' else if c = 'l' then 'L'
  else if c = 'm' then 'M' else if c = 'n' then 'N' else if c = 'o' then 'O'
  else if c = 'p' then 'P' else if c = 'q' then 'Q' else if c = 'r' then 'R'
  else if c = 's' then 'S' else if c = 't' then 'T' else if c = 'u' then 'U'
  else if c = 'v' then 'V' else if c = 'w' then 'W' else if c = 'x' then 'X'
  else if c = 'y' then 'Y' else if c = 'z' then 'Z' else c

/-- JavaScript `str.toUpperCase()` on ASCII text. -/
def toUpperAscii (s : String) : String :=
  String.mk (s.data.map upChar)

/-- JavaScript `str.split("_")` on the character list: splitting on every
underscore, keeping empty segments as JavaScript does. -/
def splitUnderscoreAux : List Char → List (List Char)
  | [] => [[]]
  | c :: cs =>
    if c = '_' then [] :: splitUnderscoreAux cs
    else
      match splitUnderscoreAux cs with
      | w :: ws => (c :: w) :: ws
      | [] => [[c]]

/-- JavaScript `str.split("_")`. -/
def splitUnderscore (s : String) : List String :=
  (splitUnderscoreAux s.data).map String.mk

/-- JavaScript `word.charAt(0).toUpperCase() + word.slice(1)`. -/
def capitalizeWord (w : String) : String :=
  match w.data with
  | [] => ""
  | c :: cs => String.mk (upChar c :: cs)

/-- The snake_case-to-PascalCase helper inside `createErrorHelpers`:
split on underscores, capitalize each word, join with `.join("")`. -/
def toPascalCase (str : String) : String :=
  String.join ((splitUnderscore str).map capitalizeWord)

/-- The discriminant spellings a helper auto-injects, in source order:
the key verbatim, PascalCase plus "Error", UPPER_SNAKE plus "_ERROR". -/
def typeVariants (k : String) : List String :=
  [k, toPascalCase k ++ "Error", toUpperAscii k ++ "_ERROR"]

/-- Replace the first binding of "type" in place, or append one:
object spread of the payload with `type` bound to the candidate spelling. -/
def setTypeField : List (String × JSVal) → String → List (String × JSVal)
  | [], tv => [("type", .str tv)]
  | (k0, v0) :: rest, tv =>
      if k0 = "type" then ("type", .str tv) :: rest
      else (k0, v0) :: setTypeField rest tv

/-- Object spread injecting the discriminant: the payload with `type`
bound to the candidate spelling.  Helpers are invoked with object
payloads; spreading a non-object contributes no own enumerable string
keys beyond what we drop here, so those are modelled as just the
injected discriminant. -/
def withType (e : JSVal) (tv : String) : JSVal :=
  match e with
  | .obj fs => .obj (setTypeField fs tv)
  | _ => .obj [("type", .str tv)]

/-- The auto-injection loop of an error helper: try each discriminant
spelling in order, returning `[null, value]` on the first success; when
every spelling fails, throw a `ZagoraError` quoting the issues of the
last attempt.  `lastIss` threads the issues of the most recent failed
validation, exactly as the source's `result` variable does. -/
def tryVariants (s : Schema) (k : String) (e : JSVal) :
    List String → List String → Except JSVal JSVal
  | lastIss, [] =>
      .error (newZagoraError
        ("Invalid error data for \"errors." ++ k ++ "\": " ++ String.intercalate ", " lastIss))
  | _, tv :: rest =>
    match s.validate (withType e tv) with
    | .promise _ =>
        .error (newZagoraError "Synchronous error helpers don\x27t support async schemas")
    | .sync (.ok v) => .ok (.arr [.null, v])
    | .sync (.issues iss) => tryVariants s k e iss rest

/-- One error helper from `Zagora.createErrorHelpers` (src/index.ts
lines 667-724), for key `k` and schema `s`, applied to a payload: first
validate the payload as given (the caller may have provided the
discriminant); on failure, run the auto-injection loop.  Any
asynchronous validation outcome throws. -/
def createErrorHelper (k : String) (s : Schema) (e : JSVal) : Except JSVal JSVal :=
  match s.validate e with
  | .promise _ =>
      .error (newZagoraError "Synchronous error helpers don\x27t support async schemas")
  | .sync (.ok v) => .ok (.arr [.null, v])
  | .sync (.issues iss) => tryVariants s k e iss (typeVariants k)

/-- What a wrapped user function does when called: return a value or
throw one.  An async function that returns a promise is modelled as
returning `.promise` / `.promiseRejected`. -/
inductive CallOutcome where
  | ret (v : JSVal)
  | thrown (e : JSVal)

/-- Stand-in value for the error-helpers object passed to the user
function; the helper functions themselves are modelled separately by
`createErrorHelper` since function values are not part of the value
model. -/
def helpersArg : JSVal := .obj []

/-- The argument list handed to the user function (src/index.ts lines
288-292 and 419-423): when an error map is declared, the helpers object
is prepended (`errorsFirst`) or appended to the resolved arguments. -/
def mkFinalArgs (d : HandlerDef) (args : List JSVal) : List JSVal :=
  match d.errSchema with
  | some _ => if d.errorsFirst then helpersArg :: args else args ++ [helpersArg]
  | none => args

/-- The catch block shared by both wrappers (src/index.ts lines 357-364
and 489-496): wrap whatever was thrown as "Handler threw unknown error"
with the original fault as cause. -/
def catchWrap (e : JSVal) : DualResult :=
  createDualResult .null (zagoraFromCaught e (some "Handler threw unknown error")) false

/-- The no-error-map branch for a non-null returned error slot (both
wrappers): pass a `ZagoraError` through unchanged, otherwise wrap it as
"Untyped error returned". -/
def untypedReturned (maybeErr : JSVal) : JSVal :=
  if isZagoraError maybeErr then maybeErr
  else zagoraFromCaught maybeErr (some "Untyped error returned")

/-- Output validation inside the synchronous try block: a throw from
`validateOutput` (an async output schema) is caught by the surrounding
catch. -/
def outBranchSync (d : HandlerDef) (out : JSVal) : DualResult :=
  match validateOutput d.outputSchema out true with
  | .error e => catchWrap e
  | .ok (.ok v) => createDualResult v .null false
  | .ok (.verr e) => createDualResult .null e false

/-- The try block of the `createHandlerSync` wrapper (src/index.ts lines
286-364): call the implementation, reject promise results, split
two-element array results into the error-slot branch and the output
branch, and catch every throw.  Note the source passes `true` as the
`isDefined` flag in both the typed and the untyped arm of the
error-slot branch (the async wrapper passes `false` in the untyped
arm). -/
def syncTry (d : HandlerDef) (impl : List JSVal → CallOutcome)
    (finalArgs : List JSVal) : DualResult :=
  match impl finalArgs with
  | .thrown e => catchWrap e
  | .ret rawResult =>
    if isPromise rawResult then
      createDualResult .null
        (newZagoraError "Using `.handlerSync` only accepts synchronous functions") false
    else
      match rawResult with
      | .arr [maybeOut, maybeErr] =>
        if isNullish maybeErr then
          outBranchSync d maybeOut
        else
          match d.errSchema with
          | some es =>
            match validateError es maybeErr true with
            | .error e => catchWrap e
            | .ok (validatedError, isTyped) =>
              if isTyped then createDualResult .null validatedError true
              else createDualResult .null validatedError true
          | none => createDualResult .null (untypedReturned maybeErr) false
      | _ => outBranchSync d rawResult

/-- The full synchronous wrapper (src/index.ts lines 278-365): input
validation runs before the try block, so its throw (an async input
schema) propagates to the caller; an input validation failure returns
immediately; otherwise the try block runs. -/
def wrapperSync (d : HandlerDef) (impl : List JSVal → CallOutcome)
    (rawArgs : List JSVal) : Except JSVal DualResult :=
  match validateInputSync d.inputSchema rawArgs with
  | .error e => .error e
  | .ok ir =>
    match ir.error with
    | some e => .ok (createDualResult .null e false)
    | none => .ok (syncTry d impl (mkFinalArgs d ir.args))

/-- Output validation inside the asynchronous try block (isSync is
false, so `validateOutput` never throws; a throw would be caught). -/
def outBranchAsync (d : HandlerDef) (out : JSVal) : DualResult :=
  match validateOutput d.outputSchema out false with
  | .error e => catchWrap e
  | .ok (.ok v) => createDualResult v .null false
  | .ok (.verr e) => createDualResult .null e false

/-- The awaited-result part of the asynchronous try block (src/index.ts
lines 438-488), applied to the value the returned promise resolved to.
Here the untyped arm of the error-slot branch passes `false`. -/
def asyncBody (d : HandlerDef) (rawResult : JSVal) : DualResult :=
  match rawResult with
  | .arr [maybeOut, maybeErr] =>
    if isNullish maybeErr then
      outBranchAsync d maybeOut
    else
      match d.errSchema with
      | some es =>
        match validateError es maybeErr false with
        | .error e => catchWrap e
        | .ok (validatedError, isTyped) =>
          if isTyped then createDualResult .null validatedError true
          else createDualResult .null validatedError false
      | none => createDualResult .null (untypedReturned maybeErr) false
  | _ => outBranchAsync d rawResult

/-- The try block of the `createHandlerAsync` wrapper (src/index.ts
lines 417-496): a non-promise return value is rejected before awaiting;
awaiting a rejected promise throws into the catch block. -/
def asyncTry (d : HandlerDef) (impl : List JSVal → CallOutcome)
    (finalArgs : List JSVal) : DualResult :=
  match impl finalArgs with
  | .thrown e => catchWrap e
  | .ret (.promise rawResult) => asyncBody d rawResult
  | .ret (.promiseRejected e) => catchWrap e
  | .ret _ =>
      createDualResult .null
        (newZagoraError "Using `.handler` only accepts async functions") false

/-- The full asynchronous wrapper (src/index.ts lines 409-497): input
validation awaits asynchronous schemas and never throws; the rest runs
in the try block, so every call produces a dual result (the function is
total — the resolved promise never rejects). -/
def wrapperAsync (d : HandlerDef) (impl : List JSVal → CallOutcome)
    (rawArgs : List JSVal) : DualResult :=
  match validateInput d.inputSchema rawArgs with
  | ir =>
    match ir.error with
    | some e => createDualResult .null e false
    | none => asyncTry d impl (mkFinalArgs d ir.args)

/-! Concrete schemas used to instantiate the theorems, mirroring the
validators the repository's tests build with zod (test/helpers.ts and
test/edge-cases.test.ts). -/

/-- Field lookup on an object's bindings. -/
def getField : List (String × JSVal) → String → Option JSVal
  | [], _ => none
  | (k, v) :: rest, key => if k = key then some v else getField rest key

/-- Schema `z.string()`: accept exactly strings. -/
def strCheck : JSVal → ValidateOutcome
  | .str s => .ok (.str s)
  | _ => .issues ["Invalid input: expected string"]

def strSchema : Schema := ⟨fun v => .sync (strCheck v)⟩

/-- Schema `z.number()`: accept exactly numbers. -/
def numCheck : JSVal → ValidateOutcome
  | .num n => .ok (.num n)
  | _ => .issues ["Invalid input: expected number"]

def numSchema : Schema := ⟨fun v => .sync (numCheck v)⟩

/-- The `networkError` schema of test/helpers.ts: an object whose
`type` field is the literal "NETWORK_ERROR". -/
def netCheck : JSVal → ValidateOutcome
  | .obj fs =>
      match getField fs "type" with
      | some (.str t) =>
          if t = "NETWORK_ERROR" then .ok (.obj fs)
          else .issues ["Invalid literal value, expected NETWORK_ERROR"]
      | _ => .issues ["Invalid literal value, expected NETWORK_ERROR"]
  | _ => .issues ["Invalid network error"]

def netSchema : Schema := ⟨fun v => .sync (netCheck v)⟩

/-- Membership in the speed enumeration of the spec's example scenario. -/
def speedOk (s : String) : Bool :=
  s = "slow" || s = "normal" || s = "fast"

/-- Schema `z.tuple([SpeedSchema, z.number().default(123)])` as zod evaluates
it on the values the failing call exercises: a two-element array of an
enumeration member and a number validates; everything else — in
particular a bare string — fails. -/
def speedRetryCheck : JSVal → ValidateOutcome
  | .arr [.str s, .num n] =>
      if speedOk s then .ok (.arr [.str s, .num n])
      else .issues ["Invalid option"]
  | _ => .issues ["Invalid input: expected array"]

def speedRetrySchema : Schema := ⟨fun v => .sync (speedRetryCheck v)⟩

/-- The output schema of the example scenario: an object with a
non-empty string field `foo`. -/
def fooCheck : JSVal → ValidateOutcome
  | .obj [("foo", .str s)] =>
      if s.length ≥ 1 then .ok (.obj [("foo", .str s)])
      else .issues ["String must contain at least 1 character"]
  | _ => .issues ["Invalid output: expected foo object"]

def fooSchema : Schema := ⟨fun v => .sync (fooCheck v)⟩

/-- A schema whose validate capability always answers with a `Promise`
(the asyncSchemas of test/edge-cases.test.ts). -/
def asyncEchoSchema : Schema := ⟨fun v => .promise (.ok v)⟩

/-- A schema that accepts every value unchanged (`z.any()`). -/
def anySchema : Schema := ⟨fun v => .sync (.ok v)⟩

/-- Handler definition with string input/output and a single declared
error kind `network` (the shape the tests build most often). -/
def dNet : HandlerDef := ⟨strSchema, strSchema, some [("network", netSchema)], false⟩

/-- Handler definition with string input/output and no error map. -/
def dPlain : HandlerDef := ⟨strSchema, strSchema, none, false⟩

/-- The spec's example scenario: positional tuple input (speed
enumeration, number defaulting to 123) and a `foo`-object output. -/
def dSpeed : HandlerDef := ⟨speedRetrySchema, fooSchema, none, false⟩

/-- The example scenario's handler as an async user function:
an object with `foo` bound to the speed-retry string. -/
def speedImplAsync : List JSVal → CallOutcome := fun args =>
  match args with
  | [.str s, .num n] => .ret (.promise (.obj [("foo", .str (s ++ "-" ++ toString n))]))
  | _ => .ret (.promise .null)

/-- The example scenario's handler as a sync user function. -/
def speedImplSync : List JSVal → CallOutcome := fun args =>
  match args with
  | [.str s, .num n] => .ret (.obj [("foo", .str (s ++ "-" ++ toString n))])
  | _ => .ret .null

/-- An error payload that validates against `netSchema`. -/
def netPayload : JSVal := .obj [("type", .str "NETWORK_ERROR"), ("message", .str "boom")]

/-! Claim theorems -/

/-- Claim C1.  The claim says `isDefined` is true only when the error
slot is non-null and the candidate validated against a declared error
schema, and false for unmatched errors.  The synchronous wrapper
violates this: with an error map declared, a returned error value that
matches no declared schema is reported with `isDefined = true` (first
conjunct), while the asynchronous wrapper reports the same situation
with `isDefined = false` (second conjunct) — matching the claim, the
declared `BaseResult` type (which types the untyped arm as
`DualResult<null, ZagoraError, false>`), and the spec.  The third
conjunct records that the candidate indeed matches no declared schema.
The sync path's `true` (src/index.ts line 325) is a slip. -/
theorem C1_sync_unmatched_error_isDefined :
    wrapperSync dNet (fun _ => .ret (.arr [.null, .str "boom"])) [.str "x"]
      = .ok (createDualResult .null (.str "boom") true)
    ∧ wrapperAsync dNet (fun _ => .ret (.promise (.arr [.null, .str "boom"]))) [.str "x"]
      = createDualResult .null (.str "boom") false
    ∧ netSchema.validate (.str "boom") = .sync (.issues ["Invalid network error"]) :=
  ⟨rfl, rfl, rfl⟩

/-- Claim C2, counterexample.  A synchronous-mode callable whose input
schema validates asynchronously throws a `ZagoraError` at call time —
an exception propagates to the caller even though both schemas are
present, refuting "the only faults that ever raise are the
construction-time faults for a missing input or output schema".  The
repository's own test suite expects this throw
(test/edge-cases.test.ts, "should throw error when async input schema
used with handlerSync"). -/
theorem C2_sync_async_input_schema_throws :
    wrapperSync ⟨asyncEchoSchema, strSchema, none, false⟩
      (fun _ => .ret (.str "hi")) [.str "test"]
      = .error (newZagoraError "Cannot use async input schema validation in handlerSync") :=
  rfl

/-- Every throw escaping `validateInputSync` is the async-input-schema
fault. -/
theorem validateInputSync_error_eq (s : Schema) (raw : List JSVal) (e : JSVal)
    (h : validateInputSync s raw = .error e) :
    e = newZagoraError "Cannot use async input schema validation in handlerSync" := by
  unfold validateInputSync singleInputSync at h
  split at h
  · split at h
    · simp_all
    · simp_all
    · split at h <;> simp_all
  · split at h <;> simp_all

/-- Claim C2, amended.  Every invocation of a wrapped callable returns
(or resolves to) a Result Value, with two exceptions: the
construction-time faults for a missing input or output schema, and — in
synchronous-expected mode — a call-time fault thrown when the input
schema validation returns a pending computation.  First conjunct: the
only value the synchronous wrapper can throw is that async-input fault
(asynchronous output or error schemas in sync mode are caught inside
the try block and reported as Result Values; the asynchronous wrapper
is total by construction).  Second conjunct: the terminal build step
faults exactly when a schema is missing. -/
theorem C2_amended_only_declared_faults_raise :
    (∀ (d : HandlerDef) (impl : List JSVal → CallOutcome) (rawArgs : List JSVal) (e : JSVal),
      wrapperSync d impl rawArgs = .error e →
      e = newZagoraError "Cannot use async input schema validation in handlerSync")
    ∧ (∀ (st : ZagoraState) (m : String),
      requireSchemas st = .error m → st.input = none ∨ st.output = none) := by
  constructor
  · intro d impl rawArgs e h
    unfold wrapperSync at h
    split at h
    · rename_i e' heq
      injection h with h'
      subst h'
      exact validateInputSync_error_eq _ _ _ heq
    · split at h <;> simp_all
  · intro st m h
    unfold requireSchemas at h
    split at h
    · exact Or.inl (by assumption)
    · split at h
      · exact Or.inr (by assumption)
      · simp_all

/-- Claim C2, witness: the amended theorem applied at the concrete
throwing call and at a builder state missing its input schema. -/
theorem C2_amended_witness :
    newZagoraError "Cannot use async input schema validation in handlerSync"
      = newZagoraError "Cannot use async input schema validation in handlerSync"
    ∧ ((none : Option Schema) = none ∨ (some strSchema : Option Schema) = none) :=
  ⟨C2_amended_only_declared_faults_raise.1 ⟨asyncEchoSchema, strSchema, none, false⟩
      (fun _ => .ret (.str "hi")) [.str "test"] _ rfl,
    C2_amended_only_declared_faults_raise.2 ⟨none, some strSchema, none, false⟩
      ".input(...) must be called first" rfl⟩

/-- Claim C3, counterexample.  A thrown value that successfully
validates against the declared `network` error schema (first conjunct)
is nevertheless not classified: both wrappers wrap it as an untyped
"Handler threw unknown error" with `isDefined = false`, refuting "if it
matches one, the call yields a typed error result with isDefined =
true".  The repository's tests pin the same behavior for a thrown
`ZagoraError` (test/handler-async.test.ts, "should handle async
ZagoraError throwing"). -/
theorem C3_thrown_matching_value_unclassified :
    netSchema.validate netPayload = .sync (.ok netPayload)
    ∧ wrapperSync dNet (fun _ => .thrown netPayload) [.str "x"]
      = .ok (createDualResult .null
          (zagoraFromCaught netPayload (some "Handler threw unknown error")) false)
    ∧ wrapperAsync dNet (fun _ => .thrown netPayload) [.str "x"]
      = createDualResult .null
          (zagoraFromCaught netPayload (some "Handler threw unknown error")) false :=
  ⟨rfl, rfl, rfl⟩

/-- Claim C3, amended.  Every value thrown by the user function —
whether or not it matches a declared error schema — is wrapped as an
untyped Uniform Error Value with reason "Handler threw unknown error",
preserving the original fault as the cause; no classification against
the declared error schemas is performed for thrown values
(classification applies only to returned [output, error] pairs).  The
three conjuncts cover a synchronous throw under the sync wrapper, a
synchronous throw under the async wrapper, and a rejected promise under
the async wrapper. -/
theorem C3_amended_thrown_always_untyped :
    (∀ (d : HandlerDef) (impl : List JSVal → CallOutcome) (rawArgs as : List JSVal) (e : JSVal),
      validateInputSync d.inputSchema rawArgs = .ok ⟨as, none⟩ →
      impl (mkFinalArgs d as) = .thrown e →
      wrapperSync d impl rawArgs
        = .ok (createDualResult .null
            (zagoraFromCaught e (some "Handler threw unknown error")) false))
    ∧ (∀ (d : HandlerDef) (impl : List JSVal → CallOutcome) (rawArgs as : List JSVal) (e : JSVal),
      validateInput d.inputSchema rawArgs = ⟨as, none⟩ →
      impl (mkFinalArgs d as) = .thrown e →
      wrapperAsync d impl rawArgs
        = createDualResult .null
            (zagoraFromCaught e (some "Handler threw unknown error")) false)
    ∧ (∀ (d : HandlerDef) (impl : List JSVal → CallOutcome) (rawArgs as : List JSVal) (e : JSVal),
      validateInput d.inputSchema rawArgs = ⟨as, none⟩ →
      impl (mkFinalArgs d as) = .ret (.promiseRejected e) →
      wrapperAsync d impl rawArgs
        = createDualResult .null
            (zagoraFromCaught e (some "Handler threw unknown error")) false) := by
  refine ⟨fun d impl rawArgs as e h1 h2 => ?_, fun d impl rawArgs as e h1 h2 => ?_,
    fun d impl rawArgs as e h1 h2 => ?_⟩
  · simp [wrapperSync, h1, syncTry, h2, catchWrap]
  · simp [wrapperAsync, h1, asyncTry, h2, catchWrap]
  · simp [wrapperAsync, h1, asyncTry, h2, catchWrap]

/-- Claim C3, witness: the first conjunct of the amended theorem at a
concrete sync handler throwing a plain `Error`. -/
theorem C3_amended_witness :
    wrapperSync dPlain (fun _ => .thrown (.errObj "Some basic error")) [.str "barry"]
      = .ok (createDualResult .null
          (zagoraFromCaught (.errObj "Some basic error") (some "Handler threw unknown error"))
          false) :=
  C3_amended_thrown_always_untyped.1 dPlain
    (fun _ => .thrown (.errObj "Some basic error")) [.str "barry"] [.str "barry"]
    (.errObj "Some basic error") rfl rfl

/-- Claim C4.  The claim (and the spec's testable property, and the
repository's own tests in test/edge-cases.test.ts) say the one-argument
call `("fast")` on a tuple schema whose second element defaults to 123
resolves identically to `("fast", 123)`.  The code has no backfill
step: with one raw argument it validates the bare string "fast" as a
single value against the tuple schema, which fails, so the two calls
produce different Result Values — an input-validation error versus the
expected success.  The conjuncts evaluate the async entry point at both
calls and the sync entry point at the one-argument call. -/
theorem C4_no_default_backfill_eval :
    wrapperAsync dSpeed speedImplAsync [.str "fast", .num 123]
      = createDualResult (.obj [("foo", .str "fast-123")]) .null false
    ∧ wrapperAsync dSpeed speedImplAsync [.str "fast"]
      = createDualResult .null (zagoraFromIssues ["Invalid input: expected array"]) false
    ∧ wrapperSync dSpeed speedImplSync [.str "fast"]
      = .ok (createDualResult .null
          (zagoraFromIssues ["Invalid input: expected array"]) false) :=
  ⟨rfl, rfl, rfl⟩

/-- Claim C5, counterexample.  With two raw arguments, tuple-shaped
validation of `[1, 2]` against a plain number schema fails (second
conjunct), yet the issues are not returned as the input error: a second
validation attempt interprets the first raw argument `1` as a single
value, succeeds, and the handler runs with `[1]` as its resolved
arguments (first and third conjuncts), refuting "no second validation
attempt ... is performed". -/
theorem C5_second_attempt_performed :
    validateInputSync numSchema [.num 1, .num 2]
      = .ok { args := [.num 1], error := none }
    ∧ numSchema.validate (.arr [.num 1, .num 2])
      = .sync (.issues ["Invalid input: expected number"])
    ∧ wrapperSync ⟨numSchema, numSchema, none, false⟩
        (fun as => .ret (as.headD .null)) [.num 1, .num 2]
      = .ok (createDualResult (.num 1) .null false) :=
  ⟨rfl, rfl, rfl⟩

/-- Claim C5, amended.  When more than one raw argument is supplied the
arguments are first validated as a positional tuple; if that validation
fails, the resolver falls back to a second validation attempt
interpreting the first raw argument as a single value, and the input
error, if any, is the issues of that second attempt.  (With at most one
raw argument only the single-value attempt runs.)  Stated for both the
synchronous and the asynchronous resolver. -/
theorem C5_amended_single_value_fallback :
    (∀ (s : Schema) (rawArgs : List JSVal) (iss : List String),
      rawArgs.length > 1 →
      s.validate (.arr rawArgs) = .sync (.issues iss) →
      validateInputSync s rawArgs = singleInputSync s rawArgs)
    ∧ (∀ (s : Schema) (rawArgs : List JSVal) (iss : List String),
      rawArgs.length > 1 →
      (s.validate (.arr rawArgs)).awaited = .issues iss →
      validateInput s rawArgs = singleInput s rawArgs) := by
  constructor
  · intro s rawArgs iss h1 h2
    simp [validateInputSync, h1, h2]
  · intro s rawArgs iss h1 h2
    simp [validateInput, h1, h2]

/-- Claim C5, witness: the synchronous conjunct of the amended theorem
at the concrete two-number call. -/
theorem C5_amended_witness :
    validateInputSync numSchema [.num 1, .num 2]
      = singleInputSync numSchema [.num 1, .num 2] :=
  C5_amended_single_value_fallback.1 numSchema [.num 1, .num 2]
    ["Invalid input: expected number"] (by decide) rfl

/-- Claim C6, counterexample.  With no error declaration map, a plain
string returned in the error slot is not handed back raw: it is wrapped
as a `ZagoraError` with message/reason "Untyped error returned" and the
raw value as the cause (the repository's test "should handle untyped
errors returned from handler" pins exactly this), refuting the claim's
"error field equal to that raw returned value (for a plain string ...)"
for the no-map case. -/
theorem C6_no_map_error_wrapped :
    wrapperSync dPlain (fun _ => .ret (.arr [.null, .str "Some error"])) [.str "barry"]
      = .ok (createDualResult .null
          (.zerror "Untyped error returned" [] (.str "Some error") "Untyped error returned")
          false)
    ∧ (JSVal.zerror "Untyped error returned" [] (.str "Some error") "Untyped error returned"
        ≠ JSVal.str "Some error") :=
  ⟨rfl, fun h => JSVal.noConfusion h⟩

/-- When every declared error schema rejects the candidate
synchronously, classification falls through the whole map and reports
the candidate as untyped, unchanged. -/
theorem validateError_all_fail (es : List (String × Schema)) (e : JSVal) (b : Bool)
    (h : ∀ p ∈ es, ∃ iss, (p.2).validate e = .sync (.issues iss)) :
    validateError es e b = .ok (e, false) := by
  induction es with
  | nil => rfl
  | cons p rest ih =>
    obtain ⟨iss, hp⟩ := h p (List.mem_cons_self p rest)
    obtain ⟨k, s⟩ := p
    unfold validateError
    rw [hp]
    exact ih fun q hq => h q (List.mem_cons_of_mem _ hq)

/-- Claim C6, amended.  Untyped-error round trip, as the code actually
behaves (the claim had the two cases swapped): (i) with no error map
declared, a non-null returned error value that is not already a
`ZagoraError` is wrapped as a Uniform Error Value with reason "Untyped
error returned" and the raw value as cause (sync and async wrappers);
(ii) a value that already is a `ZagoraError` passes through unchanged;
(iii) with an error map declared but no schema matching, the error
field is the raw returned value, unwrapped, and the asynchronous
wrapper reports `isDefined = false` (the synchronous wrapper's `true`
in this arm is the C1 slip).  `isDefined` is false throughout. -/
theorem C6_amended_untyped_roundtrip :
    (∀ (d : HandlerDef) (impl : List JSVal → CallOutcome) (rawArgs as : List JSVal)
        (out e : JSVal),
      d.errSchema = none →
      validateInputSync d.inputSchema rawArgs = .ok ⟨as, none⟩ →
      impl (mkFinalArgs d as) = .ret (.arr [out, e]) →
      isNullish e = false → isZagoraError e = false →
      wrapperSync d impl rawArgs
        = .ok (createDualResult .null
            (zagoraFromCaught e (some "Untyped error returned")) false))
    ∧ (∀ (d : HandlerDef) (impl : List JSVal → CallOutcome) (rawArgs as : List JSVal)
        (out e : JSVal),
      d.errSchema = none →
      validateInput d.inputSchema rawArgs = ⟨as, none⟩ →
      impl (mkFinalArgs d as) = .ret (.promise (.arr [out, e])) →
      isNullish e = false → isZagoraError e = false →
      wrapperAsync d impl rawArgs
        = createDualResult .null (zagoraFromCaught e (some "Untyped error returned")) false)
    ∧ (∀ (d : HandlerDef) (impl : List JSVal → CallOutcome) (rawArgs as : List JSVal)
        (out e : JSVal),
      d.errSchema = none →
      validateInput d.inputSchema rawArgs = ⟨as, none⟩ →
      impl (mkFinalArgs d as) = .ret (.promise (.arr [out, e])) →
      isNullish e = false → isZagoraError e = true →
      wrapperAsync d impl rawArgs = createDualResult .null e false)
    ∧ (∀ (d : HandlerDef) (impl : List JSVal → CallOutcome) (rawArgs as : List JSVal)
        (out e : JSVal) (es : List (String × Schema)),
      d.errSchema = some es →
      validateInput d.inputSchema rawArgs = ⟨as, none⟩ →
      impl (mkFinalArgs d as) = .ret (.promise (.arr [out, e])) →
      isNullish e = false →
      (∀ p ∈ es, ∃ iss, (p.2).validate e = .sync (.issues iss)) →
      wrapperAsync d impl rawArgs = createDualResult .null e false) := by
  refine ⟨fun d impl rawArgs as out e hd h1 h2 he hz => ?_,
    fun d impl rawArgs as out e hd h1 h2 he hz => ?_,
    fun d impl rawArgs as out e hd h1 h2 he hz => ?_,
    fun d impl rawArgs as out e es hd h1 h2 he hu => ?_⟩
  · simp [wrapperSync, h1, syncTry, h2, isPromise, he, hd, untypedReturned, hz]
  · simp [wrapperAsync, h1, asyncTry, h2, asyncBody, he, hd, untypedReturned, hz]
  · simp [wrapperAsync, h1, asyncTry, h2, asyncBody, he, hd, untypedReturned, hz]
  · simp [wrapperAsync, h1, asyncTry, h2, asyncBody, he, hd,
      validateError_all_fail es e false hu]

/-- Claim C6, witness: the no-map async conjunct at a returned plain
string, and the declared-but-unmatched async conjunct at the concrete
`network` error map. -/
theorem C6_amended_witness :
    wrapperAsync dPlain (fun _ => .ret (.promise (.arr [.null, .str "Some error"]))) [.str "t"]
      = createDualResult .null
          (zagoraFromCaught (.str "Some error") (some "Untyped error returned")) false
    ∧ wrapperAsync dNet (fun _ => .ret (.promise (.arr [.null, .str "boom"]))) [.str "t"]
      = createDualResult .null (.str "boom") false :=
  ⟨C6_amended_untyped_roundtrip.2.1 dPlain
      (fun _ => .ret (.promise (.arr [.null, .str "Some error"]))) [.str "t"] [.str "t"]
      .null (.str "Some error") rfl rfl rfl rfl rfl,
    C6_amended_untyped_roundtrip.2.2.2 dNet
      (fun _ => .ret (.promise (.arr [.null, .str "boom"]))) [.str "t"] [.str "t"]
      .null (.str "boom") [("network", netSchema)] rfl rfl rfl rfl
      (by
        intro p hp
        simp only [List.mem_singleton] at hp
        subst hp
        exact ⟨["Invalid network error"], rfl⟩)⟩

/-- Claim C7.  Execution-mode mismatch is reported, never thrown.
First conjunct: under the asynchronous entry point, whenever input
validation succeeds and the user function returns a non-promise value,
the call resolves to `data = null`, `isDefined = false`, and the error
"Using `.handler` only accepts async functions" (whose message contains
"only accepts async functions"); the conclusion does not depend on the
returned value `v`, so the raw value is discarded.  Second conjunct,
symmetrically: under the synchronous entry point a promise-returning
function yields the "only accepts synchronous functions" error, and the
conclusion does not depend on the promise's payload, so the pending
computation is never awaited.  That async calls always resolve rather
than throw is expressed by `wrapperAsync` being a total function into
`DualResult`. -/
theorem C7_mode_mismatch_reported :
    (∀ (d : HandlerDef) (impl : List JSVal → CallOutcome) (rawArgs as : List JSVal) (v : JSVal),
      validateInput d.inputSchema rawArgs = ⟨as, none⟩ →
      impl (mkFinalArgs d as) = .ret v → isPromise v = false →
      wrapperAsync d impl rawArgs
        = createDualResult .null
            (newZagoraError "Using `.handler` only accepts async functions") false)
    ∧ (∀ (d : HandlerDef) (impl : List JSVal → CallOutcome) (rawArgs as : List JSVal) (v : JSVal),
      validateInputSync d.inputSchema rawArgs = .ok ⟨as, none⟩ →
      impl (mkFinalArgs d as) = .ret v → isPromise v = true →
      wrapperSync d impl rawArgs
        = .ok (createDualResult .null
            (newZagoraError "Using `.handlerSync` only accepts synchronous functions") false)) := by
  constructor
  · intro d impl rawArgs as v h1 h2 h3
    cases v <;> (try simp [isPromise] at h3) <;>
      simp [wrapperAsync, h1, asyncTry, h2]
  · intro d impl rawArgs as v h1 h2 h3
    simp [wrapperSync, h1, syncTry, h2, h3]

/-- Claim C7, witness: both conjuncts at concrete mismatched handlers
(a sync function under `.handler`, an async function under
`.handlerSync`). -/
theorem C7_mode_mismatch_witness :
    wrapperAsync dPlain (fun _ => .ret (.str "TEST")) [.str "test"]
      = createDualResult .null
          (newZagoraError "Using `.handler` only accepts async functions") false
    ∧ wrapperSync dPlain (fun _ => .ret (.promise (.str "TEST"))) [.str "test"]
      = .ok (createDualResult .null
          (newZagoraError "Using `.handlerSync` only accepts synchronous functions") false) :=
  ⟨C7_mode_mismatch_reported.1 dPlain (fun _ => .ret (.str "TEST")) [.str "test"]
      [.str "test"] (.str "TEST") rfl rfl rfl,
    C7_mode_mismatch_reported.2 dPlain (fun _ => .ret (.promise (.str "TEST"))) [.str "test"]
      [.str "test"] (.promise (.str "TEST")) rfl rfl rfl⟩

/-- Claim C8.  For a payload omitting the discriminant field — so that
validating it as given fails, which the hypothesis `h0` captures (the
spec requires every declared error schema to demand its discriminant) —
the helper attempts validation with the discriminant auto-injected
under the candidate spellings in order: the key verbatim, the
PascalCase-plus-"Error" spelling, the UPPER_SNAKE-plus-"_ERROR"
spelling.  The first successful validation's payload is returned (as
the `[null, payload]` tuple helpers produce); a returned payload always
comes from a successful validation, and when every attempt fails the
helper throws a construction fault instead of returning an invalid
error object. -/
theorem C8_helper_injection_order :
    ∀ (k : String) (s : Schema) (e : JSVal) (iss0 : List String),
      s.validate e = .sync (.issues iss0) →
      ((∀ v, s.validate (withType e k) = .sync (.ok v) →
        createErrorHelper k s e = .ok (.arr [.null, v]))
      ∧ (∀ (i1 : List String) (v : JSVal),
        s.validate (withType e k) = .sync (.issues i1) →
        s.validate (withType e (toPascalCase k ++ "Error")) = .sync (.ok v) →
        createErrorHelper k s e = .ok (.arr [.null, v]))
      ∧ (∀ (i1 i2 : List String) (v : JSVal),
        s.validate (withType e k) = .sync (.issues i1) →
        s.validate (withType e (toPascalCase k ++ "Error")) = .sync (.issues i2) →
        s.validate (withType e (toUpperAscii k ++ "_ERROR")) = .sync (.ok v) →
        createErrorHelper k s e = .ok (.arr [.null, v]))
      ∧ (∀ (i1 i2 i3 : List String),
        s.validate (withType e k) = .sync (.issues i1) →
        s.validate (withType e (toPascalCase k ++ "Error")) = .sync (.issues i2) →
        s.validate (withType e (toUpperAscii k ++ "_ERROR")) = .sync (.issues i3) →
        createErrorHelper k s e
          = .error (newZagoraError
              ("Invalid error data for \"errors." ++ k ++ "\": "
                ++ String.intercalate ", " i3)))) := by
  intro k s e iss0 h0
  refine ⟨fun v hc1 => ?_, fun i1 v hc1 hc2 => ?_, fun i1 i2 v hc1 hc2 hc3 => ?_,
    fun i1 i2 i3 hc1 hc2 hc3 => ?_⟩
  · simp [createErrorHelper, h0, typeVariants, tryVariants, hc1]
  · simp [createErrorHelper, h0, typeVariants, tryVariants, hc1, hc2]
  · simp [createErrorHelper, h0, typeVariants, tryVariants, hc1, hc2, hc3]
  · simp [createErrorHelper, h0, typeVariants, tryVariants, hc1, hc2, hc3]

/-- Claim C8, witness: the `network` helper with a payload missing the
discriminant: the verbatim spelling "network" and the PascalCase
spelling "NetworkError" both fail against the schema requiring the
literal "NETWORK_ERROR", and the third, UPPER_SNAKE spelling succeeds,
so the helper returns the payload with "NETWORK_ERROR" injected. -/
theorem C8_helper_injection_witness :
    createErrorHelper "network" netSchema (.obj [("message", .str "x")])
      = .ok (.arr [.null, .obj [("message", .str "x"), ("type", .str "NETWORK_ERROR")]]) :=
  (C8_helper_injection_order "network" netSchema (.obj [("message", .str "x")])
      ["Invalid literal value, expected NETWORK_ERROR"] rfl).2.2.1
    ["Invalid literal value, expected NETWORK_ERROR"]
    ["Invalid literal value, expected NETWORK_ERROR"]
    (.obj [("message", .str "x"), ("type", .str "NETWORK_ERROR")]) rfl rfl rfl

/-- Agreement holds for every value `createDualResult` builds. -/
theorem dualAgrees_create (d e : JSVal) (f : Bool) :
    dualAgrees (createDualResult d e f) := ⟨rfl, rfl, rfl⟩

/-- Agreement holds for the catch block's result. -/
theorem dualAgrees_catchWrap (e : JSVal) : dualAgrees (catchWrap e) := ⟨rfl, rfl, rfl⟩

/-- Every result the synchronous try block can produce agrees. -/
theorem dualAgrees_syncTry (d : HandlerDef) (impl : List JSVal → CallOutcome)
    (finalArgs : List JSVal) : dualAgrees (syncTry d impl finalArgs) := by
  unfold syncTry outBranchSync
  repeat' split
  all_goals exact ⟨rfl, rfl, rfl⟩

/-- Every result the asynchronous try block can produce agrees. -/
theorem dualAgrees_asyncTry (d : HandlerDef) (impl : List JSVal → CallOutcome)
    (finalArgs : List JSVal) : dualAgrees (asyncTry d impl finalArgs) := by
  unfold asyncTry asyncBody outBranchAsync
  repeat' split
  all_goals exact ⟨rfl, rfl, rfl⟩

/-- Every dual result the synchronous wrapper returns agrees. -/
theorem wrapperSync_ok_agrees (d : HandlerDef) (impl : List JSVal → CallOutcome)
    (rawArgs : List JSVal) (r : DualResult)
    (h : wrapperSync d impl rawArgs = .ok r) : dualAgrees r := by
  unfold wrapperSync at h
  split at h
  · simp at h
  · split at h
    · injection h with h'
      subst h'
      exact dualAgrees_create _ _ _
    · injection h with h'
      subst h'
      exact dualAgrees_syncTry _ _ _

/-- Every dual result the asynchronous wrapper produces agrees. -/
theorem wrapperAsync_agrees (d : HandlerDef) (impl : List JSVal → CallOutcome)
    (rawArgs : List JSVal) : dualAgrees (wrapperAsync d impl rawArgs) := by
  unfold wrapperAsync
  cases h : (validateInput d.inputSchema rawArgs).error with
  | some e =>
      simp [h]
      exact dualAgrees_create _ _ _
  | none =>
      simp [h]
      exact dualAgrees_asyncTry _ _ _

/-- A dual result whose views agree has the three-element tuple view
`[data, error, isDefined]`. -/
theorem dualAgrees_toTuple (r : DualResult) (h : dualAgrees r) :
    r.toTuple = JSVal.arr [r.data, r.error, .boolv r.isDefined] := by
  obtain ⟨a, b, c⟩ := h
  unfold DualResult.toTuple
  rw [a, b, c]

/-- Claim C9.  Every Result Value produced by any path of either
wrapper (success, typed error, untyped error, validation failure, mode
mismatch, caught throw) has a positional view that is exactly the
three-element sequence `[data, error, isDefined]`: slot 0 equals the
named field `data`, slot 1 equals `error`, slot 2 equals `isDefined`,
so the tuple view and the object view can never diverge. -/
theorem C9_dual_result_views_agree :
    ∀ (d : HandlerDef) (implS implA : List JSVal → CallOutcome) (rawArgs : List JSVal),
      (∀ r, wrapperSync d implS rawArgs = .ok r →
        r.toTuple = JSVal.arr [r.data, r.error, .boolv r.isDefined])
      ∧ (wrapperAsync d implA rawArgs).toTuple
          = JSVal.arr [(wrapperAsync d implA rawArgs).data,
              (wrapperAsync d implA rawArgs).error,
              .boolv (wrapperAsync d implA rawArgs).isDefined] := by
  intro d implS implA rawArgs
  constructor
  · intro r hr
    exact dualAgrees_toTuple r (wrapperSync_ok_agrees d implS rawArgs r hr)
  · exact dualAgrees_toTuple _ (wrapperAsync_agrees d implA rawArgs)

/-- Claim C9, witness: the sync conjunct at a concrete echo handler. -/
theorem C9_dual_result_witness :
    (createDualResult (.str "hi") .null false).toTuple
      = JSVal.arr [(createDualResult (.str "hi") JSVal.null false).data,
          (createDualResult (.str "hi") JSVal.null false).error,
          .boolv (createDualResult (.str "hi") JSVal.null false).isDefined] :=
  (C9_dual_result_views_agree dPlain (fun as => .ret (as.headD .null))
      (fun as => .ret (as.headD .null)) [.str "hi"]).1
    (createDualResult (.str "hi") .null false) rfl

/-- Claim C10.  Whenever the user function's (awaited) return value is
an array of length exactly two with a non-null second element, both
wrappers unconditionally treat it as an [output, error] pair: the
result is the same for any two output schemas and any two first
elements (so the first element is discarded and the array is never
validated against the output schema — including when the whole array
would itself satisfy the output schema), and the result's `data` field
is null. -/
theorem C10_pair_shape_overrides_output :
    (∀ (inputS o1 o2 : Schema) (errs : Option (List (String × Schema))) (ef : Bool)
        (impl1 impl2 : List JSVal → CallOutcome) (rawArgs as : List JSVal) (v1 v2 e : JSVal),
      validateInputSync inputS rawArgs = .ok ⟨as, none⟩ →
      impl1 (mkFinalArgs ⟨inputS, o1, errs, ef⟩ as) = .ret (.arr [v1, e]) →
      impl2 (mkFinalArgs ⟨inputS, o2, errs, ef⟩ as) = .ret (.arr [v2, e]) →
      isNullish e = false →
      wrapperSync ⟨inputS, o1, errs, ef⟩ impl1 rawArgs
        = wrapperSync ⟨inputS, o2, errs, ef⟩ impl2 rawArgs
      ∧ ∀ r, wrapperSync ⟨inputS, o1, errs, ef⟩ impl1 rawArgs = .ok r → r.data = .null)
    ∧ (∀ (inputS o1 o2 : Schema) (errs : Option (List (String × Schema))) (ef : Bool)
        (impl1 impl2 : List JSVal → CallOutcome) (rawArgs as : List JSVal) (v1 v2 e : JSVal),
      validateInput inputS rawArgs = ⟨as, none⟩ →
      impl1 (mkFinalArgs ⟨inputS, o1, errs, ef⟩ as) = .ret (.promise (.arr [v1, e])) →
      impl2 (mkFinalArgs ⟨inputS, o2, errs, ef⟩ as) = .ret (.promise (.arr [v2, e])) →
      isNullish e = false →
      wrapperAsync ⟨inputS, o1, errs, ef⟩ impl1 rawArgs
        = wrapperAsync ⟨inputS, o2, errs, ef⟩ impl2 rawArgs
      ∧ ∀ r, wrapperAsync ⟨inputS, o1, errs, ef⟩ impl1 rawArgs = r → r.data = .null) := by
  constructor
  · intro inputS o1 o2 errs ef impl1 impl2 rawArgs as v1 v2 e h1 h2 h3 he
    constructor
    · simp [wrapperSync, h1, syncTry, h2, h3, isPromise, he]
    · intro r hr
      simp [wrapperSync, h1, syncTry, h2, isPromise, he] at hr
      rcases errs with _ | es
      · rw [← hr]
        rfl
      · rcases hv : validateError es e true with e' | ⟨ve, bt⟩
        · simp [hv] at hr
          rw [← hr]
          rfl
        · cases bt <;> simp [hv] at hr <;> (rw [← hr]; rfl)
  · intro inputS o1 o2 errs ef impl1 impl2 rawArgs as v1 v2 e h1 h2 h3 he
    constructor
    · simp [wrapperAsync, h1, asyncTry, h2, h3, asyncBody, he]
    · intro r hr
      simp [wrapperAsync, h1, asyncTry, h2, asyncBody, he] at hr
      rcases errs with _ | es
      · rw [← hr]
        rfl
      · rcases hv : validateError es e false with e' | ⟨ve, bt⟩
        · simp [hv] at hr
          rw [← hr]
          rfl
        · cases bt <;> simp [hv] at hr <;> (rw [← hr]; rfl)

/-- Claim C10, witness: two handlers returning `["a", "E"]` and
`["b", "E"]` under different output schemas — one of which
(`anySchema`) the whole array would satisfy — produce identical
results, whose `data` field is null. -/
theorem C10_pair_shape_witness :
    wrapperSync ⟨strSchema, anySchema, none, false⟩
        (fun _ => .ret (.arr [.str "a", .str "E"])) [.str "x"]
      = wrapperSync ⟨strSchema, numSchema, none, false⟩
        (fun _ => .ret (.arr [.str "b", .str "E"])) [.str "x"]
    ∧ (createDualResult .null
        (zagoraFromCaught (.str "E") (some "Untyped error returned")) false).data
      = JSVal.null :=
  ⟨(C10_pair_shape_overrides_output.1 strSchema anySchema numSchema none false
      (fun _ => .ret (.arr [.str "a", .str "E"]))
      (fun _ => .ret (.arr [.str "b", .str "E"]))
      [.str "x"] [.str "x"] (.str "a") (.str "b") (.str "E") rfl rfl rfl rfl).1,
    (C10_pair_shape_overrides_output.1 strSchema anySchema numSchema none false
      (fun _ => .ret (.arr [.str "a", .str "E"]))
      (fun _ => .ret (.arr [.str "b", .str "E"]))
      [.str "x"] [.str "x"] (.str "a") (.str "b") (.str "E") rfl rfl rfl rfl).2
      (createDualResult .null
        (zagoraFromCaught (.str "E") (some "Untyped error returned")) false) rfl⟩

end Zagora
